import Mathlib

/-!
Shallow embedding of the nanogit repository cache (src/src/lib.rs) and the
parts of the GUI driver (src/src/main.rs) the verified claims touch.

Modelling conventions:
- The git2 library is external to this repository.  Its data (commits
  reachable from HEAD, configuration values, enumerated status entries) is
  carried in a `Repository` value, and the outcome of each fallible adapter
  primitive that the cache merely propagates (index(), add_path, write,
  write_tree, find_tree, Signature::now, Repository::commit) is an explicit
  input of the embedded verb, mirroring the `?` propagation in the source.
- `PathBuf` is modelled as `String`; git2 `Status` bitflags as an opaque
  `Nat` wrapped in a structure.
- Every mutex-protected mutation of the `statuses` projection performed by
  the refresh worker is one `StatusAction`; the source re-acquires the
  statuses mutex separately for the initial `clear` and for each `push`,
  so readers can interleave between any two actions.
- `std::sync::Mutex` is not reentrant: a `lock()` on a mutex already held
  by the calling thread never returns normally.  `RepoCache::commit` holds
  the repo mutex guard for its whole body and then calls `refresh`, whose
  synchronous `refresh_log` re-locks the same mutex on the same thread;
  this non-returning outcome is modelled as `CommitOutcome.hangs`.
- `CacheState.workersSpawned` is specification instrumentation: it counts
  the `std::thread::spawn` calls made by `refresh`, so that a claim can
  state that a refresh was or was not started.
-/

namespace Nanogit

/-- Opaque git2 status bitflags attached to a status entry. -/
structure Status where
  bits : Nat
deriving Repr, DecidableEq

/-- FileStatus from src/src/lib.rs: one entry of the status projection. -/
structure FileStatus where
  path : String
  status : Status
deriving Repr, DecidableEq

/-- LogItem from src/src/lib.rs: one element of the log projection. -/
structure LogItem where
  name : String
  email : String
  commit : String
  timestamp : Int
  message : String
deriving Repr, DecidableEq

/-- A commit as the git2 adapter reports it: id, optional author name and
email (None when not valid UTF-8 or absent), commit time in seconds, and
optional message. -/
structure Commit where
  id : String
  authorName : Option String
  authorEmail : Option String
  time : Int
  message : Option String
deriving Repr, DecidableEq

/-- The state of the underlying git2 repository as seen through the adapter
primitives the cache uses.  `headCommits` is the sequence the revision
walker pushed from HEAD yields, newest first; it is empty exactly when HEAD
is unborn (push_head and head() fail then).  `statusEntries` is what
`Repository::statuses` enumerates: per entry the path as UTF-8 (`none` when
the path is not valid UTF-8) and the status flags. -/
structure Repository where
  headCommits : List Commit
  userName : Option String
  userEmail : Option String
  statusEntries : List (Option String × Status)
deriving Repr, DecidableEq

/-- Error kinds surfaced by the adapter and propagated by the cache. -/
inductive GitError
  | notARepo
  | io
  | pathInvalid
  | missingConfig (key : String)
  | unbornHead
  | other (msg : String)
deriving Repr, DecidableEq

/-- Mutable state owned by RepoCache: the two projections and the refresh
clock, plus `workersSpawned`, ghost instrumentation counting background
refresh workers spawned so far. -/
structure CacheState where
  statuses : List FileStatus
  log : List LogItem
  localRefresh : Option Nat
  remoteRefresh : Option Nat
  workersSpawned : Nat
deriving Repr, DecidableEq

/-- RepoCache::get_statuses — returns a clone of the current projection. -/
def get_statuses (c : CacheState) : List FileStatus :=
  c.statuses

/-- RepoCache::get_log — returns a clone of the current log projection. -/
def get_log (c : CacheState) : List LogItem :=
  c.log

/-- RepoCache::is_local_refreshed — true iff the local refresh timestamp is
present. -/
def is_local_refreshed (c : CacheState) : Bool :=
  c.localRefresh.isSome

/-- RepoCache::open — Repository::open is an external call whose outcome is
the input; on success the cache starts with empty projections, absent
timestamps and no workers. -/
def openCache (repoRes : Except GitError Repository) :
    Except GitError (Repository × CacheState) :=
  match repoRes with
  | .error e => .error e
  | .ok repo => .ok (repo, ⟨[], [], none, none, 0⟩)

/-- The cap the source passes to refresh_log (the literal 10 at the call
site in RepoCache::refresh; the spec names it MAX_LOG). -/
def MAX_LOG : Nat := 10

/-- How refresh_log renders one commit as a LogItem, with the literal
fallbacks of the source. -/
def logItemOfCommit (c : Commit) : LogItem :=
  { name := c.authorName.getD "Unknown"
  , email := c.authorEmail.getD "unknown@example.com"
  , timestamp := c.time
  , message := c.message.getD "<no commit message>"
  , commit := c.id }

/-- RepoCache::refresh_log — locks the repo, pushes HEAD on a revision walk
(failing when HEAD is unborn), then collects the first `maxCommits` commits
of the walk, newest first, as LogItems.  The loop `if i >= max_commits
\x7b break \x7d` is `List.take`. -/
def refresh_log (repo : Repository) (maxCommits : Nat) :
    Except GitError (List LogItem) :=
  if repo.headCommits.isEmpty then
    .error .unbornHead
  else
    .ok ((repo.headCommits.take maxCommits).map logItemOfCommit)

/-- One mutex-protected access to the statuses projection performed by the
refresh worker.  The source clears the vector under the lock, then
re-acquires the lock once per enumerated entry to push it. -/
inductive StatusAction
  | clear
  | push (fs : FileStatus)
deriving Repr, DecidableEq

/-- Effect of a single atomic statuses-mutex action. -/
def applyAction : List FileStatus → StatusAction → List FileStatus
  | _, .clear => []
  | xs, .push f => xs ++ [f]

/-- The FileStatus the worker pushes for one enumerated entry:
`entry.path().unwrap_or("<none>")` then `PathBuf::from`. -/
def publishEntry (e : Option String × Status) : FileStatus :=
  { path := e.1.getD "<none>", status := e.2 }

/-- The sequence of atomic statuses-mutex actions the refresh worker
performs: one clear, then one push per enumerated entry, in enumeration
order. -/
def workerActions (entries : List (Option String × Status)) :
    List StatusAction :=
  .clear :: entries.map (fun e => .push (publishEntry e))

/-- The status projection a concurrent get_statuses observes if it runs
after the first `k` atomic actions of a worker that started from projection
`prev`. -/
def observedAfter (prev : List FileStatus)
    (entries : List (Option String × Status)) (k : Nat) : List FileStatus :=
  ((workerActions entries).take k).foldl applyAction prev

/-- The status projection the worker has published once all its actions
ran. -/
def publishedStatuses (prev : List FileStatus)
    (entries : List (Option String × Status)) : List FileStatus :=
  (workerActions entries).foldl applyAction prev

/-- RepoCache::refresh — spawns the status worker first (unconditionally),
then synchronously recomputes the log via refresh_log and publishes it; the
`?` on refresh_log makes the log error the return value of refresh.
`statusesCallOk` is the outcome of the external `Repository::statuses` call
inside the worker (on failure the worker panics at the unwrap before
touching the projection); `t` is the wall clock when the worker finishes.
The returned CacheState is the quiescent state after both the synchronous
part and the spawned worker have completed. -/
def refresh (c : CacheState) (repo : Repository) (statusesCallOk : Bool)
    (t : Nat) : Except GitError Unit × CacheState :=
  let spawned : CacheState := { c with workersSpawned := c.workersSpawned + 1 }
  let afterWorker : CacheState :=
    if statusesCallOk then
      { spawned with
          statuses := publishedStatuses spawned.statuses repo.statusEntries
          localRefresh := some t }
    else spawned
  match refresh_log repo MAX_LOG with
  | .error e => (.error e, afterWorker)
  | .ok l => (.ok (), { afterWorker with log := l })

/-- RepoCache::stage — briefly locks the repo to obtain the index (the
guard is a temporary, released at the end of the statement), add_path, then
write, each propagated with `?`; then `self.refresh()?`, whose synchronous
error also propagates.  `indexRes`, `addRes` and `writeRes` are the
outcomes of the three external adapter calls. -/
def stage (c : CacheState) (repo : Repository)
    (indexRes addRes writeRes : Except GitError Unit)
    (statusesCallOk : Bool) (t : Nat) :
    Except GitError Unit × CacheState :=
  match indexRes with
  | .error e => (.error e, c)
  | .ok _ =>
    match addRes with
    | .error e => (.error e, c)
    | .ok _ =>
      match writeRes with
      | .error e => (.error e, c)
      | .ok _ => refresh c repo statusesCallOk t

/-- RepoCache::unstage — identical shape to stage with remove_path in place
of add_path. -/
def unstage (c : CacheState) (repo : Repository)
    (indexRes removeRes writeRes : Except GitError Unit)
    (statusesCallOk : Bool) (t : Nat) :
    Except GitError Unit × CacheState :=
  match indexRes with
  | .error e => (.error e, c)
  | .ok _ =>
    match removeRes with
    | .error e => (.error e, c)
    | .ok _ =>
      match writeRes with
      | .error e => (.error e, c)
      | .ok _ => refresh c repo statusesCallOk t

/-- Outcome of a call to RepoCache::commit.  The success path never reaches
`Ok(())`: after `repo.commit` succeeds the function evaluates
`_ = self.refresh()` while the `MutexGuard` on the repo mutex taken at the
top of the body is still alive, and the synchronous `refresh_log` inside
refresh calls `self.repo.lock()` again on the same thread; a second
`std::sync::Mutex::lock` on the holding thread never returns normally, so
the call hangs (`hangs`). -/
inductive CommitOutcome
  | err (e : GitError)
  | hangs
deriving Repr, DecidableEq

/-- Result of executing RepoCache::commit: its outcome, the repository
after the adapter mutations it performed, and the cache state after the
call (the worker spawned by the hung refresh blocks forever on the repo
mutex, so it never publishes). -/
structure CommitExec where
  outcome : CommitOutcome
  repoAfter : Repository
  cacheAfter : CacheState
deriving Repr, DecidableEq

/-- RepoCache::commit — locks the repo for the whole body; reads user.name
and user.email from configuration (error when missing); resolves HEAD to
the parent commit (error when unborn); obtains the index, writes it to a
tree, finds the tree, builds the signature and records the commit on HEAD
with the hard-coded message string "Your commit message" (the source takes
no message parameter); then evaluates `_ = self.refresh()`, which spawns
the status worker and hangs re-locking the repo mutex.  `indexRes`,
`writeTreeRes`, `findTreeRes`, `sigRes` and `commitRes` are the outcomes of
the external adapter calls; `now` is the signature wall clock. -/
def commit (c : CacheState) (repo : Repository)
    (indexRes : Except GitError Unit) (writeTreeRes : Except GitError String)
    (findTreeRes : Except GitError Unit) (sigRes : Except GitError Unit)
    (commitRes : Except GitError String) (now : Int) : CommitExec :=
  match repo.userName with
  | none => ⟨.err (.missingConfig "user.name"), repo, c⟩
  | some name =>
    match repo.userEmail with
    | none => ⟨.err (.missingConfig "user.email"), repo, c⟩
    | some email =>
      if repo.headCommits.isEmpty then
        ⟨.err .unbornHead, repo, c⟩
      else
        match indexRes with
        | .error e => ⟨.err e, repo, c⟩
        | .ok _ =>
          match writeTreeRes with
          | .error e => ⟨.err e, repo, c⟩
          | .ok _ =>
            match findTreeRes with
            | .error e => ⟨.err e, repo, c⟩
            | .ok _ =>
              match sigRes with
              | .error e => ⟨.err e, repo, c⟩
              | .ok _ =>
                match commitRes with
                | .error e => ⟨.err e, repo, c⟩
                | .ok newId =>
                  let newCommit : Commit :=
                    { id := newId
                    , authorName := some name
                    , authorEmail := some email
                    , time := now
                    , message := some "Your commit message" }
                  let repoAfter :=
                    { repo with headCommits := newCommit :: repo.headCommits }
                  ⟨.hangs, repoAfter,
                    { c with workersSpawned := c.workersSpawned + 1 }⟩

/-- One line emitted by the git2 diff printer: its origin marker character
and the raw bytes of the line content. -/
structure DiffLine where
  origin : Char
  content : List Nat
deriving Repr, DecidableEq

/-- The fragment the diff callback appends for one emitted line:
`format!("\x7b\x7d \x7b\x7d", line.origin(), from_utf8_lossy(content))`,
i.e. the origin character, one space, then the lossy rendering of the
content bytes.  `lossy` models `String::from_utf8_lossy`, an external
standard-library function. -/
def renderLine (lossy : List Nat → String) (l : DiffLine) : String :=
  String.mk [l.origin] ++ " " ++ lossy l.content

/-- RepoCache::diff — resolves HEAD (error when unborn), restricts the diff
options to the pathspec with minimal on, computes the tree-to-workdir diff
(whose emitted lines are the external input `lines`), then accumulates the
rendered fragment of every emitted line into `result` via push_str,
returning the accumulated string.  The callback always returns true, so
every emitted line is processed. -/
def diff (repo : Repository) (lines : List DiffLine)
    (lossy : List Nat → String) : Except GitError String :=
  if repo.headCommits.isEmpty then
    .error .unbornHead
  else
    .ok (lines.foldl (fun acc l => acc ++ renderLine lossy l) "")

/-- The concatenation, in emission order, of one rendered fragment per
emitted diff line (the shape the spec describes for the diff output). -/
def concatRendered (lossy : List Nat → String) : List DiffLine → String
  | [] => ""
  | l :: ls => renderLine lossy l ++ concatRendered lossy ls

/-! Concrete fixtures used by counterexamples and witnesses. -/

/-- A commit with full metadata. -/
def k1 : Commit := ⟨"aaaa", some "Ada", some "ada@x", 100, some "first"⟩

/-- An older commit with full metadata. -/
def k2 : Commit := ⟨"bbbb", some "Bob", some "bob@x", 90, some "second"⟩

/-- A repository with a born HEAD (one commit) and identity configured. -/
def repo1 : Repository := ⟨[k2], some "Ada", some "ada@x", []⟩

/-- A repository with two commits on HEAD, newest first. -/
def repo2c : Repository := ⟨[k1, k2], some "Ada", some "ada@x", []⟩

/-- A repository whose HEAD is unborn and whose status enumeration yields
one untracked file. -/
def repoUnborn : Repository := ⟨[], some "Ada", some "ada@x", [(some "a.txt", ⟨2⟩)]⟩

/-- The freshly opened cache state. -/
def c0 : CacheState := ⟨[], [], none, none, 0⟩

/-- A status entry present before a refresh. -/
def oldFS : FileStatus := ⟨"old.txt", ⟨1⟩⟩

/-- First enumerated status entry. -/
def e1 : Option String × Status := (some "a.txt", ⟨2⟩)

/-- Second enumerated status entry. -/
def e2 : Option String × Status := (some "b.txt", ⟨3⟩)

/-! Helper lemmas shared between claims. -/

/-- Appending the empty string is the identity. -/
theorem str_append_empty (s : String) : s ++ "" = s := by
  cases s with
  | mk d =>
    show String.mk (d ++ []) = String.mk d
    rw [List.append_nil]

/-- Prepending the empty string is the identity. -/
theorem str_empty_append (s : String) : "" ++ s = s := by
  cases s with
  | mk d =>
    show String.mk ([] ++ d) = String.mk d
    rw [List.nil_append]

/-- String append is associative. -/
theorem str_append_assoc (a b c : String) :
    a ++ b ++ c = a ++ (b ++ c) := by
  cases a with
  | mk da =>
    cases b with
    | mk db =>
      cases c with
      | mk dc =>
        show String.mk (da ++ db ++ dc) = String.mk (da ++ (db ++ dc))
        rw [List.append_assoc]

/-- The first component of refresh is decided by refresh_log alone: error
exactly on an unborn HEAD, independent of the worker outcome and clock. -/
theorem refresh_fst (c : CacheState) (repo : Repository) (ok : Bool)
    (t : Nat) :
    (refresh c repo ok t).1
      = if repo.headCommits.isEmpty then .error .unbornHead else .ok () := by
  unfold refresh refresh_log
  cases h : repo.headCommits.isEmpty <;> simp [h]

/-- Folding the push actions of a worker over an accumulator appends the
published entries in enumeration order. -/
theorem foldl_push_actions (entries : List (Option String × Status))
    (acc : List FileStatus) :
    (entries.map (fun e => StatusAction.push (publishEntry e))).foldl
        applyAction acc
      = acc ++ entries.map publishEntry := by
  induction entries generalizing acc with
  | nil => simp
  | cons x xs ih => simp [applyAction, ih]

/-- A completed worker publishes exactly the mapped entries, discarding the
previous projection. -/
theorem publishedStatuses_eq (prev : List FileStatus)
    (entries : List (Option String × Status)) :
    publishedStatuses prev entries = entries.map publishEntry := by
  unfold publishedStatuses workerActions
  rw [List.foldl_cons]
  exact foldl_push_actions entries (applyAction prev .clear)

/-- Accumulating rendered diff fragments with push_str equals the plain
concatenation of the fragments. -/
theorem foldl_renderLine (lossy : List Nat → String) (lines : List DiffLine)
    (acc : String) :
    lines.foldl (fun a l => a ++ renderLine lossy l) acc
      = acc ++ concatRendered lossy lines := by
  induction lines generalizing acc with
  | nil => rw [List.foldl_nil, concatRendered, str_append_empty]
  | cons x xs ih =>
    rw [List.foldl_cons, concatRendered, ih, str_append_assoc]

/-! Claim theorems. -/

/-- C1: the claim states that commit, on a repository with a born HEAD and
identity configured, records the commit, schedules a refresh and returns
control to the caller.  On the code the success path never returns: commit
holds the repo mutex guard for its whole body and the refresh it calls
re-locks that mutex on the same thread inside refresh_log.  At a concrete
born, configured repository with every adapter step succeeding, the
outcome is `hangs` (the worker spawn did happen first, the return never
does). -/
theorem C1_commit_never_returns :
    (commit c0 repo1 (.ok ()) (.ok "t1") (.ok ()) (.ok ())
        (.ok "cccc") 100).outcome = CommitOutcome.hangs ∧
    (commit c0 repo1 (.ok ()) (.ok "t1") (.ok ()) (.ok ())
        (.ok "cccc") 100).cacheAfter.workersSpawned = c0.workersSpawned + 1 := by
  exact ⟨rfl, rfl⟩

/-- C2: the claim states the commit recorded on HEAD carries exactly the
caller-supplied message.  The source RepoCache::commit takes no message
parameter and records the hard-coded string "Your commit message"; at a
concrete configured repository where the UI-supplied message is "first",
the recorded head commit message is the hard-coded literal, not "first". -/
theorem C2_commit_message_not_callers :
    ((commit c0 repo1 (.ok ()) (.ok "t2") (.ok ()) (.ok ())
        (.ok "dddd") 200).repoAfter.headCommits.head?.map Commit.message)
      = some (some "Your commit message") ∧
    (some (some "Your commit message") : Option (Option String))
      ≠ some (some "first") := by
  exact ⟨rfl, by decide⟩

/-- C3: the claim states a reader concurrent with a refresh observes either
the whole previous status projection or the whole new one.  The worker
releases the statuses mutex between its clear and each push, so a reader
scheduled after the clear and the first of two pushes observes a
one-element list that is neither the previous projection nor the published
one. -/
theorem C3_torn_snapshot_observable :
    observedAfter [oldFS] [e1, e2] 2 = [publishEntry e1] ∧
    observedAfter [oldFS] [e1, e2] 2 ≠ [oldFS] ∧
    observedAfter [oldFS] [e1, e2] 2 ≠ publishedStatuses [oldFS] [e1, e2] := by
  refine ⟨rfl, by decide, by decide⟩

/-- C4 counterexample: the claim states a refresh() call that returns an
error leaves local_refresh_at unchanged and publishes no status
projection.  On an unborn-HEAD repository with one enumerated status entry
the call returns the unborn-head error (refresh_log fails), yet the worker
was spawned before that failure and, completing successfully, publishes the
new status projection and sets local_refresh_at. -/
theorem C4_error_refresh_still_publishes :
    (refresh c0 repoUnborn true 5).1 = .error .unbornHead ∧
    (refresh c0 repoUnborn true 5).2.localRefresh = some 5 ∧
    (refresh c0 repoUnborn true 5).2.localRefresh ≠ c0.localRefresh ∧
    (refresh c0 repoUnborn true 5).2.statuses = [publishEntry e1] ∧
    (refresh c0 repoUnborn true 5).2.statuses ≠ c0.statuses := by
  refine ⟨rfl, rfl, by decide, rfl, by decide⟩

/-- C4 amended: for every call to refresh() that returns an error, the log
projection is left unchanged by that call, but the status worker was
spawned before the fallible log recomputation: when its statuses
enumeration succeeds it still publishes a new status projection and sets
local_refresh_at; the status projection and timestamp are unchanged only
when the worker itself also fails. -/
theorem C4_amended_error_refresh (c : CacheState) (repo : Repository)
    (ok : Bool) (t : Nat) (e : GitError)
    (h : (refresh c repo ok t).1 = .error e) :
    (refresh c repo ok t).2.log = c.log ∧
    (refresh c repo ok t).2.workersSpawned = c.workersSpawned + 1 ∧
    (ok = false → (refresh c repo ok t).2.statuses = c.statuses ∧
      (refresh c repo ok t).2.localRefresh = c.localRefresh) ∧
    (ok = true → (refresh c repo ok t).2.localRefresh = some t ∧
      (refresh c repo ok t).2.statuses
        = publishedStatuses c.statuses repo.statusEntries) := by
  unfold refresh refresh_log at h ⊢
  cases he : repo.headCommits.isEmpty <;>
    cases ok <;> simp [he] at h ⊢

/-- C4 amended, witness at a concrete instance: the unborn-HEAD repository
with a successful worker. -/
theorem C4_amended_witness :
    (refresh c0 repoUnborn true 7).2.log = c0.log ∧
    (refresh c0 repoUnborn true 7).2.workersSpawned = c0.workersSpawned + 1 ∧
    (true = false → (refresh c0 repoUnborn true 7).2.statuses = c0.statuses ∧
      (refresh c0 repoUnborn true 7).2.localRefresh = c0.localRefresh) ∧
    (true = true → (refresh c0 repoUnborn true 7).2.localRefresh = some 7 ∧
      (refresh c0 repoUnborn true 7).2.statuses
        = publishedStatuses c0.statuses repoUnborn.statusEntries) :=
  C4_amended_error_refresh c0 repoUnborn true 7 .unbornHead rfl

/-- C5 counterexample: the claim states stage(path) succeeds whenever
add_path and index write succeed, the scheduled refresh being
fire-and-forget.  On an unborn-HEAD repository all three index steps
succeed, yet stage returns the unborn-head error because the source writes
`self.refresh()?` and the synchronous log walk inside refresh fails. -/
theorem C5_stage_fails_despite_index_success :
    (stage c0 repoUnborn (.ok ()) (.ok ()) (.ok ()) true 5).1
      = .error .unbornHead ∧
    (stage c0 repoUnborn (.ok ()) (.ok ()) (.ok ()) true 5).1
      ≠ .ok () := by
  refine ⟨rfl, ?_⟩
  intro hc
  exact Except.noConfusion hc

/-- C5 amended: stage(path) returns success exactly when obtaining the
index, adding the path, writing the index, and the synchronous log
recomputation of the triggered refresh (which needs a born HEAD) all
succeed — the error of the refresh call propagates through the `?` into
stage's return value, so its error set also includes the log-walk errors;
only the background status worker is fire-and-forget: its outcome (and the
wall clock) never affects stage's return value. -/
theorem C5_amended_stage_success_iff (c : CacheState) (repo : Repository)
    (indexRes addRes writeRes : Except GitError Unit)
    (ok1 ok2 : Bool) (t1 t2 : Nat) :
    ((stage c repo indexRes addRes writeRes ok1 t1).1 = .ok () ↔
      indexRes = .ok () ∧ addRes = .ok () ∧ writeRes = .ok () ∧
        repo.headCommits.isEmpty = false) ∧
    (stage c repo indexRes addRes writeRes ok1 t1).1
      = (stage c repo indexRes addRes writeRes ok2 t2).1 := by
  cases indexRes with
  | error e => simp [stage]
  | ok u =>
    cases addRes with
    | error e => simp [stage]
    | ok v =>
      cases writeRes with
      | error e => simp [stage]
      | ok w =>
        simp only [stage, refresh_fst]
        cases he : repo.headCommits.isEmpty <;> simp [he]

/-- C6: when the mutating adapter step of stage, unstage or commit itself
fails, the verb returns that adapter error, the repository is unchanged,
and the cache state — projections, timestamps and the worker count — is
exactly the previous one, i.e. no refresh was started.  Every failure
point of the three verbs is enumerated: index acquisition, add/remove,
index write for stage/unstage; missing user.name, missing user.email,
unborn HEAD, index acquisition, write_tree, find_tree, signature and the
commit call for commit. -/
theorem C6_failed_mutation_leaves_all (c : CacheState) (repo : Repository)
    (e : GitError) (a b : Except GitError Unit)
    (wt : Except GitError String) (ft sg : Except GitError Unit)
    (cr : Except GitError String) (ok : Bool) (t : Nat) (now : Int)
    (nm em : String) (oe : Option String) (k : Commit) (ks hs : List Commit)
    (sts : List (Option String × Status)) :
    stage c repo (.error e) a b ok t = (.error e, c) ∧
    stage c repo (.ok ()) (.error e) b ok t = (.error e, c) ∧
    stage c repo (.ok ()) (.ok ()) (.error e) ok t = (.error e, c) ∧
    unstage c repo (.error e) a b ok t = (.error e, c) ∧
    unstage c repo (.ok ()) (.error e) b ok t = (.error e, c) ∧
    unstage c repo (.ok ()) (.ok ()) (.error e) ok t = (.error e, c) ∧
    commit c ⟨hs, none, oe, sts⟩ a wt ft sg cr now
      = ⟨.err (.missingConfig "user.name"), ⟨hs, none, oe, sts⟩, c⟩ ∧
    commit c ⟨hs, some nm, none, sts⟩ a wt ft sg cr now
      = ⟨.err (.missingConfig "user.email"), ⟨hs, some nm, none, sts⟩, c⟩ ∧
    commit c ⟨[], some nm, some em, sts⟩ a wt ft sg cr now
      = ⟨.err .unbornHead, ⟨[], some nm, some em, sts⟩, c⟩ ∧
    commit c ⟨k :: ks, some nm, some em, sts⟩ (.error e) wt ft sg cr now
      = ⟨.err e, ⟨k :: ks, some nm, some em, sts⟩, c⟩ ∧
    commit c ⟨k :: ks, some nm, some em, sts⟩ (.ok ()) (.error e)
        ft sg cr now
      = ⟨.err e, ⟨k :: ks, some nm, some em, sts⟩, c⟩ ∧
    commit c ⟨k :: ks, some nm, some em, sts⟩ (.ok ()) (.ok "tid")
        (.error e) sg cr now
      = ⟨.err e, ⟨k :: ks, some nm, some em, sts⟩, c⟩ ∧
    commit c ⟨k :: ks, some nm, some em, sts⟩ (.ok ()) (.ok "tid")
        (.ok ()) (.error e) cr now
      = ⟨.err e, ⟨k :: ks, some nm, some em, sts⟩, c⟩ ∧
    commit c ⟨k :: ks, some nm, some em, sts⟩ (.ok ()) (.ok "tid")
        (.ok ()) (.ok ()) (.error e) now
      = ⟨.err e, ⟨k :: ks, some nm, some em, sts⟩, c⟩ := by
  exact ⟨rfl, rfl, rfl, rfl, rfl, rfl, rfl, rfl, rfl, rfl, rfl, rfl, rfl,
    rfl⟩

/-- C7: after a successful refresh the published log is the newest-first
walk of HEAD truncated to MAX_LOG = 10: get_log has length
min(commits, 10); with at most 10 commits it lists all of them, with 10 or
more it lists exactly 10, in the walk order (newest first). -/
theorem C7_log_at_most_max (c : CacheState) (repo : Repository) (ok : Bool)
    (t : Nat) (c2 : CacheState)
    (h : refresh c repo ok t = (.ok (), c2)) :
    get_log c2 = (repo.headCommits.take MAX_LOG).map logItemOfCommit ∧
    (get_log c2).length = min repo.headCommits.length MAX_LOG ∧
    (repo.headCommits.length ≤ MAX_LOG →
      get_log c2 = repo.headCommits.map logItemOfCommit) ∧
    (MAX_LOG ≤ repo.headCommits.length → (get_log c2).length = MAX_LOG) := by
  have hlog : get_log c2
      = (repo.headCommits.take MAX_LOG).map logItemOfCommit := by
    unfold refresh refresh_log at h
    cases he : repo.headCommits.isEmpty <;> simp [he] at h
    rw [← h]
    simp [get_log, List.map_take]
  refine ⟨hlog, ?_, ?_, ?_⟩
  · rw [hlog, List.length_map, List.length_take, Nat.min_comm]
  · intro hle
    rw [hlog, List.take_of_length_le hle]
  · intro hge
    rw [hlog, List.length_map, List.length_take, Nat.min_comm,
      Nat.min_eq_right hge]

/-- C7 witness: the two-commit repository yields the full two-item log. -/
theorem C7_log_witness :
    get_log (refresh c0 repo2c true 3).2
      = (repo2c.headCommits.take MAX_LOG).map logItemOfCommit ∧
    (get_log (refresh c0 repo2c true 3).2).length
      = min repo2c.headCommits.length MAX_LOG ∧
    (repo2c.headCommits.length ≤ MAX_LOG →
      get_log (refresh c0 repo2c true 3).2
        = repo2c.headCommits.map logItemOfCommit) ∧
    (MAX_LOG ≤ repo2c.headCommits.length →
      (get_log (refresh c0 repo2c true 3).2).length = MAX_LOG) :=
  C7_log_at_most_max c0 repo2c true 3 (refresh c0 repo2c true 3).2 rfl

/-- C8: every successful diff(path) call returns exactly the concatenation,
in emission order, of one fragment per emitted line, the fragment being the
origin marker character, a single space, and the lossy rendering of the
content bytes. -/
theorem C8_diff_is_concat (repo : Repository) (lines : List DiffLine)
    (lossy : List Nat → String) (s : String)
    (h : diff repo lines lossy = .ok s) :
    s = concatRendered lossy lines := by
  unfold diff at h
  cases he : repo.headCommits.isEmpty <;> simp [he] at h
  rw [← h, foldl_renderLine, str_empty_append]

/-- Concrete lossy rendering used by the diff witness. -/
def lossyFix : List Nat → String :=
  fun bs => String.mk (bs.map Char.ofNat)

/-- Concrete emitted diff lines used by the diff witness. -/
def linesFix : List DiffLine := [⟨'+', [50]⟩, ⟨'-', [51]⟩]

/-- C8 witness: the diff of a born-HEAD repository over two emitted lines
equals the concatenated fragments. -/
theorem C8_diff_witness :
    (diff repo1 linesFix lossyFix).toOption.getD ""
      = concatRendered lossyFix linesFix :=
  C8_diff_is_concat repo1 linesFix lossyFix
    ((diff repo1 linesFix lossyFix).toOption.getD "") rfl

/-- C9: whenever open succeeds, the fresh cache has an absent local refresh
timestamp and empty status and log projections. -/
theorem C9_open_starts_empty (repoRes : Except GitError Repository)
    (repo : Repository) (c : CacheState)
    (h : openCache repoRes = .ok (repo, c)) :
    is_local_refreshed c = false ∧ get_statuses c = [] ∧ get_log c = [] := by
  cases repoRes with
  | error e => exact Except.noConfusion h
  | ok r =>
    injection h with h1
    injection h1 with h2 h3
    subst h3
    exact ⟨rfl, rfl, rfl⟩

/-- C9 witness: opening the concrete repository yields the empty cache. -/
theorem C9_open_witness :
    is_local_refreshed c0 = false ∧ get_statuses c0 = [] ∧
      get_log c0 = [] :=
  C9_open_starts_empty (.ok repo1) repo1 c0 rfl

/-- C10: a completed status refresh publishes one FileStatus per enumerated
entry, in order — no entry is skipped and no refresh failure arises from a
missing UTF-8 path: an entry whose path is absent is published with the
literal path "<none>". -/
theorem C10_none_path_published (prev : List FileStatus)
    (entries : List (Option String × Status)) (s : Status) :
    publishedStatuses prev entries = entries.map publishEntry ∧
    publishEntry (none, s) = ⟨"<none>", s⟩ ∧
    (publishedStatuses prev entries).length = entries.length := by
  refine ⟨publishedStatuses_eq prev entries, rfl, ?_⟩
  rw [publishedStatuses_eq, List.length_map]

end Nanogit
